import Mathlib

/-!
Verification development for `core/bin/zksync_api/src/bin/dev-ticker-server.rs`,
the dev-environment mock price ticker server: a shallow embedding of its
handlers, catalog loader, fault-injection wrapper and routing, with the
random draws of each request made explicit parameters. `BigDecimal`
arithmetic is exact decimal arithmetic and is embedded into `ℚ`.
-/

namespace DevTicker

/-- A parsed entry of the token catalog JSON array: the two string fields
the code reads (`value["symbol"]` and `value["address"]`); any other
fields of the object are ignored. -/
structure RawTokenEntry where
  symbol : String
  address : String
  deriving Repr, DecidableEq

/-- ASCII lower-casing of one character, as Rust's `to_ascii_lowercase`
does it: map the letters A to Z to a to z and keep every other character. -/
def asciiLowerChar (c : Char) : Char :=
  if 'A' ≤ c ∧ c ≤ 'Z' then Char.ofNat (c.toNat + 32) else c

/-- `str::to_ascii_lowercase`, character by character. -/
def to_ascii_lowercase (s : String) : String :=
  String.mk (s.data.map asciiLowerChar)

/-- Model of `thread_rng().gen_range(low, high)` on floats from the rand
crate used by the server: the sample is `u * (high - low) + low` where `u`
is the unit draw (`gen` on f64), which lies in the half-open
interval [0, 1). The claims' hypotheses `0 ≤ u` and `u < 1` are exactly
that contract. -/
def gen_range (low high u : ℚ) : ℚ :=
  u * (high - low) + low

/-- The base price table inlined in `handle_coinmarketcap_token_price_query`:
a match on `symbol.as_str()` over the six known symbols, any other symbol
giving `BigDecimal::from(0)`. `BigDecimal::try_from(0.2)` is the decimal
0.2. -/
def coinmarketcap_base_price (symbol : String) : ℚ :=
  if symbol = "ETH" then 200
  else if symbol = "wBTC" then 9000
  else if symbol = "BAT" then 2/10
  else if symbol = "DAI" then 1
  else if symbol = "tGLM" then 1
  else if symbol = "GLM" then 1
  else 0

/-- The response body of `/cryptocurrency/quotes/latest`, reduced to the
fields the claims speak about: the symbol key placed under `data`, the USD
price, and the RFC3339 `last_updated` string. -/
structure CoinMarketCapResponse where
  symbol : String
  price : ℚ
  last_updated : String
  deriving Repr, DecidableEq

/-- Embedding of `handle_coinmarketcap_token_price_query`: look the symbol
up in the base table, multiply by the jitter draw
`thread_rng().gen_range(0.9, 1.1)` (unit draw `u`), and return the JSON
body. `ts` is the formatted `Utc::now()` timestamp. -/
def handle_coinmarketcap_token_price_query (symbol : String) (u : ℚ)
    (ts : String) : CoinMarketCapResponse :=
  let base_price := coinmarketcap_base_price symbol
  let random_multiplier := gen_range (9/10) (11/10) u
  let price := base_price * random_multiplier
  { symbol := symbol, price := price, last_updated := ts }

/-- The base price table inlined in `handle_coingecko_token_price_query`:
a match on the optional `coin_id` path segment over the three known ids,
any other value (including a missing segment) giving `BigDecimal::from(1)`. -/
def coingecko_base_price (coin_id : Option String) : ℚ :=
  if coin_id = some "ethereum" then 200
  else if coin_id = some "wrapped-bitcoin" then 9000
  else if coin_id = some "basic-attention-token" then 2/10
  else 1

/-- The response body of the market_chart endpoint: the `prices` array of
pairs of an epoch-milliseconds timestamp and a price number. -/
structure CoinGeckoMarketChart where
  prices : List (Int × ℚ)
  deriving Repr, DecidableEq

/-- Embedding of `handle_coingecko_token_price_query`: look the coin id up
in the base table, multiply by the jitter draw (unit draw `u`), and return
a `prices` array holding the single pair of `Utc::now().timestamp_millis()`
(the parameter `now`) and the price. -/
def handle_coingecko_token_price_query (coin_id : Option String) (u : ℚ)
    (now : Int) : CoinGeckoMarketChart :=
  let base_price := coingecko_base_price coin_id
  let price := base_price * gen_range (9/10) (11/10) u
  { prices := [(now, price)] }

/-- A token descriptor as serialized by the coins-list endpoint; platforms
is the one-entry map from ethereum to the address. -/
structure TokenData where
  id : String
  symbol : String
  name : String
  platforms : List (String × String)
  deriving Repr, DecidableEq

/-- The ways `load_tokens` can panic: `File::open(path).unwrap()` on a
missing or unreadable file, `serde_json::from_reader(..).unwrap()` on
invalid JSON, and `value["symbol"].as_str().unwrap()` (or the same for
address) on an entry without the required string field. -/
inductive PanicKind where
  | fileOpen
  | jsonParse
  | fieldAccess
  deriving Repr, DecidableEq

/-- The state of the catalog file `etc/tokens/localhost.json` as found
when it is read: absent or unreadable, unparseable, parseable but with an
entry missing a required string field, or well-formed with its entries. -/
inductive CatalogFile where
  | missing
  | invalidJson
  | entryMissingField
  | ok (entries : List RawTokenEntry)
  deriving Repr, DecidableEq

/-- The per-entry body of the map inside `load_tokens`: lower-case the
symbol and the address, build the one-entry platforms map, pick the id by
the match on the lower-cased symbol, and use the lower-cased symbol as
both `symbol` and `name`. -/
def token_data_of_entry (value : RawTokenEntry) : TokenData :=
  let symbol := to_ascii_lowercase value.symbol
  let address := to_ascii_lowercase value.address
  let platforms := [("ethereum", address)]
  let id :=
    if symbol = "eth" then "ethereum"
    else if symbol = "wbtc" then "wrapped-bitcoin"
    else if symbol = "bat" then "basic-attention-token"
    else symbol
  { id := id, symbol := symbol, name := symbol, platforms := platforms }

/-- Embedding of `load_tokens`: open and parse the file, mapping each
entry through `token_data_of_entry`; the `Except.error` cases model the
`unwrap` panics on a missing file, invalid JSON, or a missing field. -/
def load_tokens : CatalogFile → Except PanicKind (List TokenData)
  | .missing => .error .fileOpen
  | .invalidJson => .error .jsonParse
  | .entryMissingField => .error .fieldAccess
  | .ok entries => .ok (entries.map token_data_of_entry)

/-- Embedding of `handle_coingecko_token_list`: the handler body calls
`load_tokens("etc/tokens/localhost.json")` itself, so it reads the catalog
file in the state it has at request-handling time. -/
def handle_coingecko_token_list (catalog : CatalogFile) :
    Except PanicKind (List TokenData) :=
  load_tokens catalog

/-- The token descriptor as the specification words its construction
rules, for comparison with `token_data_of_entry`: lower-case the symbol
and the address, set the platforms map to ethereum paired with the
address, compute the id by the fixed table (eth to ethereum, wbtc to
wrapped-bitcoin, bat to basic-attention-token) defaulting to the
lower-cased symbol, and set the name to the lower-cased symbol. -/
def specTokenDescriptor (entry : RawTokenEntry) : TokenData :=
  let sym := to_ascii_lowercase entry.symbol
  let addr := to_ascii_lowercase entry.address
  { id :=
      if sym = "eth" then "ethereum"
      else if sym = "wbtc" then "wrapped-bitcoin"
      else if sym = "bat" then "basic-attention-token"
      else sym
    symbol := sym
    name := sym
    platforms := [("ethereum", addr)] }

/-- The three routes of `main_scope`, with their query or path input:
`/cryptocurrency/quotes/latest` with its `symbol` query parameter,
`/api/v3/coins/list`, and the market_chart route with its optional
`coin_id` path segment. -/
inductive Request where
  | quotesLatest (symbol : String)
  | coinsList
  | marketChart (coin_id : Option String)
  deriving Repr, DecidableEq

/-- The successful response bodies of the three handlers, plus the
bodyless `HttpResponse::InternalServerError().finish()` that the sloppy
wrapper injects. -/
inductive Response where
  | cmc (r : CoinMarketCapResponse)
  | tokenList (tokens : List TokenData)
  | chart (c : CoinGeckoMarketChart)
  | internalServerError
  deriving Repr, DecidableEq

/-- The random draws one request handling may consume: the two sloppy-mode
integers from `gen_range(0, 100)`, the extra delay draw from
`gen_range(100, 1000)`, and the unit draw behind the jitter multiplier. -/
structure Draws where
  d1 : ℕ
  d2 : ℕ
  delayDraw : ℕ
  u : ℚ
  deriving Repr, DecidableEq

/-- Dispatch of a request to its plain (unwrapped) handler, the routing of
`main_scope`. The result is `Except.error` exactly when the handler
panics; `catalog` is the catalog file state at request time, `now` and
`ts` the clock readings. -/
def plain_handler (catalog : CatalogFile) (now : Int) (ts : String)
    (u : ℚ) : Request → Except PanicKind Response
  | .quotesLatest symbol =>
      .ok (.cmc (handle_coinmarketcap_token_price_query symbol u ts))
  | .coinsList => (handle_coingecko_token_list catalog).map .tokenList
  | .marketChart coin_id =>
      .ok (.chart (handle_coingecko_token_price_query coin_id u now))

instance {ε α : Type} [DecidableEq ε] [DecidableEq α] :
    DecidableEq (Except ε α) := fun a b =>
  match a, b with
  | .error e, .error f => decidable_of_iff (e = f) (by simp)
  | .error _, .ok _ => isFalse (by simp)
  | .ok _, .error _ => isFalse (by simp)
  | .ok x, .ok y => decidable_of_iff (x = y) (by simp)

/-- The outcome of one request through the optional sloppy wrapper: the
injected delay in milliseconds (0 when none) and the response. -/
structure SloppyOutcome where
  delay_ms : ℕ
  result : Except PanicKind Response
  deriving Repr, DecidableEq

/-- Embedding of the `make_sloppy` wrapper: if the first draw from
`gen_range(0, 100)` is below 5 return the bodyless 500 at once, without
invoking the wrapped handler; otherwise pick the delay from the second
draw (0 to 59 gives 100 ms, 60 to 69 gives 5 s, anything else the extra
draw from `gen_range(100, 1000)` ms), sleep, and return the wrapped
handler's result unchanged. The handler is passed as a thunk so that
non-invocation is visible in the model. -/
def make_sloppy (d1 d2 delayDraw : ℕ)
    (handler : Unit → Except PanicKind Response) : SloppyOutcome :=
  if d1 < 5 then { delay_ms := 0, result := .ok .internalServerError }
  else
    let duration :=
      if d2 ≤ 59 then 100
      else if d2 ≤ 69 then 5000
      else delayDraw
    { delay_ms := duration, result := handler () }

/-- Embedding of `main_scope` together with actix routing: the request's
route picks the handler, and every route is wrapped by `make_sloppy`
exactly when `sloppy_mode` is set, otherwise dispatched directly. -/
def main_scope (sloppy_mode : Bool) (catalog : CatalogFile) (now : Int)
    (ts : String) (draws : Draws) (req : Request) : SloppyOutcome :=
  if sloppy_mode then
    make_sloppy draws.d1 draws.d2 draws.delayDraw
      (fun _ => plain_handler catalog now ts draws.u req)
  else
    { delay_ms := 0, result := plain_handler catalog now ts draws.u req }

/-- The command line options of the server: the single `--sloppy` flag,
false by default. -/
structure FeeTickerOpts where
  sloppy : Bool
  deriving Repr, DecidableEq

/-- The running server `main` constructs. Startup parses the command line
options, builds the app with `main_scope(opts.sloppy)` and binds the
listening socket; nothing in `main` or `main_scope` reads the token
catalog file, so the running server is a function of the options alone. -/
structure RunningServer where
  sloppy : Bool
  deriving Repr, DecidableEq

/-- Embedding of `main` up to the point the server is accepting requests. -/
def main (opts : FeeTickerOpts) : RunningServer :=
  { sloppy := opts.sloppy }

/-- Request dispatch of the running server: `main_scope` applied to the
sloppy flag baked in at startup and to the world (catalog file state,
clock, draws) at request time. -/
def RunningServer.handle (s : RunningServer) (catalog : CatalogFile)
    (now : Int) (ts : String) (draws : Draws) (req : Request) :
    SloppyOutcome :=
  main_scope s.sloppy catalog now ts draws req

/-! Shared facts about the jitter draw, the base price tables and the
shape of the two price handlers. -/

theorem jitter_lb (u : ℚ) (h0 : 0 ≤ u) :
    9/10 ≤ gen_range (9/10) (11/10) u := by
  unfold gen_range
  nlinarith

theorem jitter_ub (u : ℚ) (h1 : u < 1) :
    gen_range (9/10) (11/10) u < 11/10 := by
  unfold gen_range
  nlinarith

theorem coinmarketcap_base_price_nonneg (symbol : String) :
    0 ≤ coinmarketcap_base_price symbol := by
  unfold coinmarketcap_base_price
  split_ifs <;> norm_num

theorem coingecko_base_price_nonneg (coin_id : Option String) :
    0 ≤ coingecko_base_price coin_id := by
  unfold coingecko_base_price
  split_ifs <;> norm_num

theorem cmc_price_eq (symbol : String) (u : ℚ) (ts : String) :
    (handle_coinmarketcap_token_price_query symbol u ts).price =
      coinmarketcap_base_price symbol * gen_range (9/10) (11/10) u := rfl

theorem gecko_prices_eq (coin_id : Option String) (u : ℚ) (now : Int) :
    (handle_coingecko_token_price_query coin_id u now).prices =
      [(now, coingecko_base_price coin_id * gen_range (9/10) (11/10) u)] := rfl

theorem price_in_band (B u : ℚ) (hB : 0 ≤ B) (h0 : 0 ≤ u) (h1 : u < 1) :
    9/10 * B ≤ B * gen_range (9/10) (11/10) u ∧
      B * gen_range (9/10) (11/10) u ≤ 11/10 * B := by
  unfold gen_range
  constructor <;> nlinarith

/-! The claims. -/

/-- C1 as stated is false: the coin id dai is outside the three ids the
market_chart endpoint knows, yet at unit draw 0 the endpoint returns the
price 0.9 rather than 0, because its fallback base price is 1, not 0. -/
theorem C1_counterexample :
    (handle_coingecko_token_price_query (some "dai") 0 0).prices =
        [(0, 9/10)] ∧
      ¬((9 : ℚ)/10 = 0) := by
  constructor
  · rw [gecko_prices_eq]
    rw [show coingecko_base_price (some "dai") = 1 from by
      unfold coingecko_base_price
      rw [if_neg (by decide), if_neg (by decide), if_neg (by decide)]]
    norm_num [gen_range]
  · norm_num

/-- C1 corrected: a symbol outside the six known ones still gets a
successful response from the quotes endpoint, with price exactly 0; but a
coin id outside the three known ones gets base price 1 on the
market_chart endpoint, so its returned price is the jitter multiplier
itself, not 0. Neither case is an error. -/
theorem C1_unknown_keys (symbol : String) (coin_id : Option String)
    (u : ℚ) (ts : String) (now : Int)
    (hsym : symbol ≠ "ETH" ∧ symbol ≠ "wBTC" ∧ symbol ≠ "BAT" ∧
      symbol ≠ "DAI" ∧ symbol ≠ "tGLM" ∧ symbol ≠ "GLM")
    (hcid : coin_id ≠ some "ethereum" ∧ coin_id ≠ some "wrapped-bitcoin" ∧
      coin_id ≠ some "basic-attention-token") :
    (handle_coinmarketcap_token_price_query symbol u ts).price = 0 ∧
      (handle_coingecko_token_price_query coin_id u now).prices =
        [(now, gen_range (9/10) (11/10) u)] := by
  obtain ⟨hs1, hs2, hs3, hs4, hs5, hs6⟩ := hsym
  obtain ⟨hc1, hc2, hc3⟩ := hcid
  constructor
  · rw [cmc_price_eq]
    unfold coinmarketcap_base_price
    simp [hs1, hs2, hs3, hs4, hs5, hs6]
  · rw [gecko_prices_eq]
    unfold coingecko_base_price
    simp [hc1, hc2, hc3]

theorem C1_unknown_keys_witness :
    (handle_coinmarketcap_token_price_query "XYZ" (1/2) "ts").price = 0 ∧
      (handle_coingecko_token_price_query (some "dogecoin") (1/2) 7).prices =
        [(7, gen_range (9/10) (11/10) (1/2))] :=
  C1_unknown_keys "XYZ" (some "dogecoin") (1/2) "ts" 7
    ⟨by decide, by decide, by decide, by decide, by decide, by decide⟩
    ⟨by decide, by decide, by decide⟩

/-- C2 as stated is false: with the catalog file missing the server still
starts (startup reads only the command line options) and serves a quotes
request normally; the catalog is only read, and the unwrap panic only
raised, inside the coins-list request handler, at request-handling time. -/
theorem C2_counterexample :
    (main { sloppy := false }).handle CatalogFile.missing 0 "ts"
        { d1 := 0, d2 := 0, delayDraw := 100, u := 0 }
        (Request.quotesLatest "ETH") =
      { delay_ms := 0,
        result := Except.ok (Response.cmc
          { symbol := "ETH", price := 180, last_updated := "ts" }) } ∧
    (main { sloppy := false }).handle CatalogFile.missing 0 "ts"
        { d1 := 0, d2 := 0, delayDraw := 100, u := 0 }
        Request.coinsList =
      { delay_ms := 0, result := Except.error PanicKind.fileOpen } := by
  constructor
  · show SloppyOutcome.mk 0 (Except.ok (Response.cmc
      (handle_coinmarketcap_token_price_query "ETH" 0 "ts"))) = _
    norm_num [handle_coinmarketcap_token_price_query,
      coinmarketcap_base_price, gen_range]
  · rfl

/-- C2 corrected: the catalog is parsed by the coins-list handler on every
request, against the file state at request time; startup never reads the
catalog, so a missing or malformed catalog does not keep the server from
starting, and the other routes are served regardless of the catalog
state. -/
theorem C2_catalog_read_per_request (catalog : CatalogFile) (now : Int)
    (ts : String) (draws : Draws) (symbol : String) :
    ((main { sloppy := false }).handle catalog now ts draws
        Request.coinsList).result =
      (load_tokens catalog).map Response.tokenList ∧
    ((main { sloppy := false }).handle catalog now ts draws
        (Request.quotesLatest symbol)).result =
      Except.ok (Response.cmc
        (handle_coinmarketcap_token_price_query symbol draws.u ts)) :=
  ⟨rfl, rfl⟩

/-- C3: with sloppy mode enabled the wrapper follows the drawn integers
exactly: a first draw below 5 short-circuits to the bodyless 500 and the
wrapped handler is not invoked (the outcome is the same whatever the
handler); otherwise the second draw picks the delay, 0 to 59 giving
100 ms, 60 to 69 giving 5000 ms, and 70 to 99 giving the extra draw from
[100, 1000) ms, after which the wrapped handler's result is returned
unchanged. -/
theorem C3_sloppy_wrapper (d1 d2 delayDraw : ℕ)
    (handler : Unit → Except PanicKind Response)
    (hd1 : d1 < 100) (hd2 : d2 < 100)
    (hdlo : 100 ≤ delayDraw) (hdhi : delayDraw < 1000) :
    (d1 < 5 →
      make_sloppy d1 d2 delayDraw handler =
          { delay_ms := 0, result := .ok .internalServerError } ∧
        ∀ handler2, make_sloppy d1 d2 delayDraw handler =
          make_sloppy d1 d2 delayDraw handler2) ∧
    (5 ≤ d1 →
      (make_sloppy d1 d2 delayDraw handler).result = handler () ∧
        (d2 ≤ 59 → (make_sloppy d1 d2 delayDraw handler).delay_ms = 100) ∧
        (60 ≤ d2 → d2 ≤ 69 →
          (make_sloppy d1 d2 delayDraw handler).delay_ms = 5000) ∧
        (70 ≤ d2 →
          (make_sloppy d1 d2 delayDraw handler).delay_ms = delayDraw)) := by
  unfold make_sloppy
  refine ⟨fun h => ?_, fun h => ?_⟩
  · simp [h]
  · have h5 : ¬ d1 < 5 := by omega
    refine ⟨by simp [h5], fun h59 => by simp [h5, h59],
      fun h60 h69 => ?_, fun h70 => ?_⟩
    · have hn : ¬ d2 ≤ 59 := by omega
      simp [h5, hn, h69]
    · have hn : ¬ d2 ≤ 59 := by omega
      have hn2 : ¬ d2 ≤ 69 := by omega
      simp [h5, hn, hn2]

theorem C3_sloppy_wrapper_witness :
    (make_sloppy 7 65 500
        (fun _ => Except.ok (Response.tokenList []))).delay_ms = 5000 :=
  ((C3_sloppy_wrapper 7 65 500 (fun _ => Except.ok (Response.tokenList []))
      (by decide) (by decide) (by decide) (by decide)).2
    (by decide)).2.2.1 (by decide) (by decide)

/-- C4 as stated is false: the unit draw 0 is a possible value of the
generator and makes the jitter draw return exactly 0.9, which is not
strictly greater than 0.9: the sampling interval is half-open, not open. -/
theorem C4_counterexample :
    gen_range (9/10) (11/10) 0 = 9/10 ∧
      ¬((9 : ℚ)/10 < gen_range (9/10) (11/10) 0) := by
  unfold gen_range
  norm_num

/-- C4 corrected: for every call to either price endpoint the jitter
multiplier lies in the half-open interval [0.9, 1.1): it is at least 0.9,
with 0.9 itself attainable, and strictly below 1.1; both endpoints
multiply exactly this draw into their base price. -/
theorem C4_jitter_halfopen (symbol : String) (coin_id : Option String)
    (u : ℚ) (ts : String) (now : Int) (h0 : 0 ≤ u) (h1 : u < 1) :
    (9/10 ≤ gen_range (9/10) (11/10) u ∧
        gen_range (9/10) (11/10) u < 11/10) ∧
      (handle_coinmarketcap_token_price_query symbol u ts).price =
        coinmarketcap_base_price symbol * gen_range (9/10) (11/10) u ∧
      (handle_coingecko_token_price_query coin_id u now).prices =
        [(now, coingecko_base_price coin_id * gen_range (9/10) (11/10) u)] :=
  ⟨⟨jitter_lb u h0, jitter_ub u h1⟩, rfl, rfl⟩

theorem C4_jitter_halfopen_witness :
    ((9 : ℚ)/10 ≤ gen_range (9/10) (11/10) (1/2) ∧
        gen_range (9/10) (11/10) (1/2) < 11/10) ∧
      (handle_coinmarketcap_token_price_query "ETH" (1/2) "ts").price =
        coinmarketcap_base_price "ETH" * gen_range (9/10) (11/10) (1/2) ∧
      (handle_coingecko_token_price_query (some "ethereum") (1/2) 3).prices =
        [(3, coingecko_base_price (some "ethereum") *
          gen_range (9/10) (11/10) (1/2))] :=
  C4_jitter_halfopen "ETH" (some "ethereum") (1/2) "ts" 3
    (by norm_num) (by norm_num)

/-- C5: for every symbol with base price B the quotes-endpoint price P
satisfies 0.9 B ≤ P ≤ 1.1 B, and likewise by coin id on the market_chart
endpoint; concretely the ETH quote lies in [180, 220] and the
wrapped-bitcoin market_chart price lies in [8100, 9900]. -/
theorem C5_price_bounds (symbol : String) (coin_id : Option String)
    (u : ℚ) (ts : String) (now : Int) (h0 : 0 ≤ u) (h1 : u < 1) :
    (9/10 * coinmarketcap_base_price symbol ≤
        (handle_coinmarketcap_token_price_query symbol u ts).price ∧
      (handle_coinmarketcap_token_price_query symbol u ts).price ≤
        11/10 * coinmarketcap_base_price symbol) ∧
    (∀ p ∈ (handle_coingecko_token_price_query coin_id u now).prices,
        9/10 * coingecko_base_price coin_id ≤ p.2 ∧
          p.2 ≤ 11/10 * coingecko_base_price coin_id) ∧
    (180 ≤ (handle_coinmarketcap_token_price_query "ETH" u ts).price ∧
      (handle_coinmarketcap_token_price_query "ETH" u ts).price ≤ 220) ∧
    (∀ p ∈ (handle_coingecko_token_price_query
          (some "wrapped-bitcoin") u now).prices,
        8100 ≤ p.2 ∧ p.2 ≤ 9900) := by
  have hband := price_in_band (coinmarketcap_base_price symbol) u
    (coinmarketcap_base_price_nonneg symbol) h0 h1
  have hband2 := price_in_band (coingecko_base_price coin_id) u
    (coingecko_base_price_nonneg coin_id) h0 h1
  have hbandEth := price_in_band 200 u (by norm_num) h0 h1
  have hbandBtc := price_in_band 9000 u (by norm_num) h0 h1
  have hEth : coinmarketcap_base_price "ETH" = 200 := rfl
  have hBtc : coingecko_base_price (some "wrapped-bitcoin") = 9000 := rfl
  refine ⟨?_, ?_, ?_, ?_⟩
  · rw [cmc_price_eq]
    exact hband
  · intro p hp
    rw [gecko_prices_eq, List.mem_singleton] at hp
    subst hp
    exact hband2
  · rw [cmc_price_eq, hEth]
    constructor <;> nlinarith [hbandEth.1, hbandEth.2]
  · intro p hp
    rw [gecko_prices_eq, List.mem_singleton] at hp
    subst hp
    constructor
    · show (8100 : ℚ) ≤ coingecko_base_price (some "wrapped-bitcoin") *
        gen_range (9/10) (11/10) u
      rw [hBtc]
      nlinarith [hbandBtc.1]
    · show coingecko_base_price (some "wrapped-bitcoin") *
        gen_range (9/10) (11/10) u ≤ (9900 : ℚ)
      rw [hBtc]
      nlinarith [hbandBtc.2]

theorem C5_price_bounds_witness :
    180 ≤ (handle_coinmarketcap_token_price_query "ETH" (1/2) "ts").price ∧
      (handle_coinmarketcap_token_price_query "ETH" (1/2) "ts").price ≤ 220 :=
  (C5_price_bounds "ETH" (some "wrapped-bitcoin") (1/2) "ts" 0
    (by norm_num) (by norm_num)).2.2.1

/-- C6: the coins-list endpoint returns exactly one descriptor per entry
of the parsed catalog, each descriptor equal to the specification's
construction (`specTokenDescriptor`: lower-cased symbol and address,
platforms mapping ethereum to the address, id from the fixed table
defaulting to the lower-cased symbol, name the lower-cased symbol); in
particular an entry with symbol ETH yields id ethereum. -/
theorem C6_token_list (entries : List RawTokenEntry) (addr : String) :
    handle_coingecko_token_list (.ok entries) =
        .ok (entries.map token_data_of_entry) ∧
      (entries.map token_data_of_entry).length = entries.length ∧
      (∀ entry : RawTokenEntry,
        token_data_of_entry entry = specTokenDescriptor entry) ∧
      (token_data_of_entry { symbol := "ETH", address := addr }).id =
        "ethereum" :=
  ⟨rfl, by simp, fun _ => rfl, rfl⟩

/-- C7: with the sloppy flag off (the default) every route is dispatched
directly to the plain handler: the outcome carries zero injected delay
and exactly the plain handler's result, and it is never the injected
bodyless 500. -/
theorem C7_direct_dispatch (catalog : CatalogFile) (now : Int)
    (ts : String) (draws : Draws) (req : Request) :
    (main { sloppy := false }).handle catalog now ts draws req =
        { delay_ms := 0,
          result := plain_handler catalog now ts draws.u req } ∧
      ((main { sloppy := false }).handle catalog now ts draws req).result ≠
        Except.ok Response.internalServerError := by
  refine ⟨rfl, ?_⟩
  show plain_handler catalog now ts draws.u req ≠
    Except.ok Response.internalServerError
  cases req with
  | quotesLatest symbol => simp [plain_handler]
  | coinsList =>
      cases catalog <;>
        simp [plain_handler, handle_coingecko_token_list, load_tokens,
          Except.map]
  | marketChart coin_id => simp [plain_handler]

/-- C8: every synthesized price is non-negative: both base price tables
are non-negative, the jitter multiplier is strictly positive, and the
price returned by either endpoint is at least 0. -/
theorem C8_nonneg (symbol : String) (coin_id : Option String) (u : ℚ)
    (ts : String) (now : Int) (h0 : 0 ≤ u) :
    0 ≤ coinmarketcap_base_price symbol ∧
      0 ≤ coingecko_base_price coin_id ∧
      0 < gen_range (9/10) (11/10) u ∧
      0 ≤ (handle_coinmarketcap_token_price_query symbol u ts).price ∧
      ∀ p ∈ (handle_coingecko_token_price_query coin_id u now).prices,
        0 ≤ p.2 := by
  have hj := jitter_lb u h0
  have hpos : 0 < gen_range (9/10) (11/10) u := by linarith
  refine ⟨coinmarketcap_base_price_nonneg symbol,
    coingecko_base_price_nonneg coin_id, hpos, ?_, ?_⟩
  · rw [cmc_price_eq]
    exact mul_nonneg (coinmarketcap_base_price_nonneg symbol) hpos.le
  · intro p hp
    rw [gecko_prices_eq, List.mem_singleton] at hp
    subst hp
    exact mul_nonneg (coingecko_base_price_nonneg coin_id) hpos.le

theorem C8_nonneg_witness :
    0 ≤ coinmarketcap_base_price "ETH" ∧
      0 ≤ coingecko_base_price (some "ethereum") ∧
      0 < gen_range (9/10) (11/10) (1/2) ∧
      0 ≤ (handle_coinmarketcap_token_price_query "ETH" (1/2) "ts").price ∧
      ∀ p ∈ (handle_coingecko_token_price_query (some "ethereum") (1/2) 3).prices,
        0 ≤ p.2 :=
  C8_nonneg "ETH" (some "ethereum") (1/2) "ts" 3 (by norm_num)

/-- C9: a market_chart request whose coin id is none of ethereum,
wrapped-bitcoin and basic-attention-token (so also the ids of the other
configured tokens, dai, golem and the like) uses base price 1, so its
single returned price equals the jitter multiplier and lies between 0.9
and 1.1. -/
theorem C9_unknown_coin_id (coin_id : String) (u : ℚ) (now : Int)
    (h0 : 0 ≤ u) (h1 : u < 1)
    (hne : coin_id ≠ "ethereum" ∧ coin_id ≠ "wrapped-bitcoin" ∧
      coin_id ≠ "basic-attention-token") :
    coingecko_base_price (some coin_id) = 1 ∧
      ∀ p ∈ (handle_coingecko_token_price_query (some coin_id) u now).prices,
        9/10 ≤ p.2 ∧ p.2 ≤ 11/10 := by
  obtain ⟨h2, h3, h4⟩ := hne
  have hbase : coingecko_base_price (some coin_id) = 1 := by
    unfold coingecko_base_price
    simp [h2, h3, h4]
  refine ⟨hbase, ?_⟩
  intro p hp
  rw [gecko_prices_eq, List.mem_singleton] at hp
  subst hp
  constructor
  · show (9 : ℚ)/10 ≤ coingecko_base_price (some coin_id) *
      gen_range (9/10) (11/10) u
    rw [hbase, one_mul]
    exact jitter_lb u h0
  · show coingecko_base_price (some coin_id) *
      gen_range (9/10) (11/10) u ≤ (11 : ℚ)/10
    rw [hbase, one_mul]
    exact (jitter_ub u h1).le

theorem C9_unknown_coin_id_witness :
    coingecko_base_price (some "dai") = 1 ∧
      ∀ p ∈ (handle_coingecko_token_price_query (some "dai") (1/2) 3).prices,
        9/10 ≤ p.2 ∧ p.2 ≤ 11/10 :=
  C9_unknown_coin_id "dai" (1/2) 3 (by norm_num) (by norm_num)
    ⟨by decide, by decide, by decide⟩

/-- C10: every successful market_chart response carries a prices array of
exactly one element, the pair of the epoch-milliseconds timestamp and the
synthesized price number; never zero elements and never more than one. -/
theorem C10_single_price_point (coin_id : Option String) (u : ℚ)
    (now : Int) :
    (handle_coingecko_token_price_query coin_id u now).prices.length = 1 ∧
      (handle_coingecko_token_price_query coin_id u now).prices =
        [(now, coingecko_base_price coin_id * gen_range (9/10) (11/10) u)] :=
  ⟨rfl, rfl⟩

end DevTicker
